import Mathlib

/-!
Verification development for the specification-cloudflare-mcp repository.

The repository is a Cloudflare-Workers MCP server with Auth0 authentication:

* `src/index-auth0-streamable.ts` — nine MCP tools over a D1 `specifications`
  table (create/list/get/update/delete/search/compare/monthly report/logout),
  each gated on `this.props?.claims?.sub`.
* `src/param-utils.ts` — `extractMCPParams` and friends, a tolerant
  normaliser for inbound MCP parameters.
* `src/types.ts` — `UserProps` (claims + tokenSet).
* `src/auth.ts` — the OAuth broker (authorize / consent / callback / PKCE /
  transaction store).  This file is referenced by imports but is not present
  in the source tree we were given, so the broker is modelled from the
  specification (such definitions carry a `Modelled from the spec:` doc
  comment).

Machine integers are modelled as `Nat` with explicit `% 2 ^ 32` where 32-bit
overflow matters (SHA-256); JavaScript numbers that merely flow through data
structures are modelled as `Rat`.
-/

/-! ## JavaScript value model (for `param-utils.ts`) -/

/-- A JavaScript runtime value, as far as `extractMCPParams` can observe it:
`undefined`, `null`, booleans, numbers, strings, arrays and plain objects
(ordered key/value lists, keys unique as in real JS objects). -/
inductive JSValue where
  | jundefined : JSValue
  | jnull : JSValue
  | jbool (b : Bool) : JSValue
  | jnum (q : Rat) : JSValue
  | jstr (s : String) : JSValue
  | jarr (elems : List JSValue) : JSValue
  | jobj (fields : List (String × JSValue)) : JSValue

/-- JavaScript truthiness: `undefined`, `null`, `false`, `0`, `""` are falsy;
every array and object is truthy. -/
def JSValue.truthy : JSValue → Bool
  | .jundefined => false
  | .jnull => false
  | .jbool b => b
  | .jnum q => decide (q ≠ 0)
  | .jstr s => decide (s ≠ "")
  | .jarr _ => true
  | .jobj _ => true

/-- `typeof v === 'object'` — true for `null`, arrays and objects. -/
def JSValue.typeofIsObject : JSValue → Bool
  | .jnull => true
  | .jarr _ => true
  | .jobj _ => true
  | _ => false

/-- `Array.isArray`. -/
def JSValue.isArray : JSValue → Bool
  | .jarr _ => true
  | _ => false

/-- A plain (non-array) object, the declared return type of
`extractMCPParams`. -/
def JSValue.isPlainObject : JSValue → Bool
  | .jobj _ => true
  | _ => false

/-- Property access `fields.k`: first binding wins, absent keys read as
`undefined`. -/
def objGet (fields : List (String × JSValue)) (k : String) : JSValue :=
  match fields.find? (fun kv => kv.1 == k) with
  | some kv => kv.2
  | none => .jundefined

/-! ## JSON parsing (the `JSON.parse` calls in `param-utils.ts`)

`extractMCPParams` recurses through `JSON.parse` on string inputs, so the
embedding needs an executable JSON parser.  It is written over `List Char`
with explicit fuel for the mutually recursive value/array/object layers. -/

/-- JSON insignificant whitespace. -/
def isJsonWs (c : Char) : Bool :=
  c == ' ' || c == '\t' || c == '\n' || c == '\r'

/-- Skip leading JSON whitespace. -/
def skipWs (cs : List Char) : List Char :=
  cs.dropWhile isJsonWs

/-- Value of a hex digit. -/
def hexVal (c : Char) : Nat :=
  if '0' ≤ c ∧ c ≤ '9' then c.toNat - '0'.toNat
  else if 'a' ≤ c ∧ c ≤ 'f' then c.toNat - 'a'.toNat + 10
  else if 'A' ≤ c ∧ c ≤ 'F' then c.toNat - 'A'.toNat + 10
  else 0

/-- Hexadecimal digit test. -/
def isHexDigitCh (c : Char) : Bool :=
  c.isDigit || ('a' ≤ c && c ≤ 'f') || ('A' ≤ c && c ≤ 'F')

/-- Single-character JSON string escapes. -/
def escMap : Char → Option Char
  | '"' => some '"'
  | '\\' => some '\\'
  | '/' => some '/'
  | 'b' => some (Char.ofNat 8)
  | 'f' => some (Char.ofNat 12)
  | 'n' => some '\n'
  | 'r' => some '\r'
  | 't' => some '\t'
  | _ => none

/-- Parse the body of a JSON string literal (the opening quote already
consumed); returns the decoded characters and the input after the closing
quote. -/
def parseStrBody : List Char → Option (List Char × List Char)
  | [] => none
  | c :: rest =>
    if c == '"' then some ([], rest)
    else if c == '\\' then
      match rest with
      | [] => none
      | e :: rest2 =>
        if e == 'u' then
          match rest2 with
          | h1 :: h2 :: h3 :: h4 :: rest3 =>
            if isHexDigitCh h1 && isHexDigitCh h2 && isHexDigitCh h3 && isHexDigitCh h4 then
              (parseStrBody rest3).map (fun p =>
                (Char.ofNat (((hexVal h1 * 16 + hexVal h2) * 16 + hexVal h3) * 16 + hexVal h4) :: p.1,
                  p.2))
            else none
          | _ => none
        else
          match escMap e with
          | some d => (parseStrBody rest2).map (fun p => (d :: p.1, p.2))
          | none => none
    else if c.toNat < 32 then none
    else (parseStrBody rest).map (fun p => (c :: p.1, p.2))

/-- Parse an unsigned decimal digit run, returning its value, its length and
the rest of the input. -/
def parseDigits : List Char → Nat → Nat → Option (Nat × Nat × List Char)
  | c :: rest, acc, len =>
    if c.isDigit then parseDigits rest (acc * 10 + (c.toNat - '0'.toNat)) (len + 1)
    else if len = 0 then none else some (acc, len, c :: rest)
  | [], acc, len => if len = 0 then none else some (acc, len, [])

/-- Parse a JSON number into a rational. -/
def parseNumber (cs : List Char) : Option (Rat × List Char) :=
  let (neg, cs1) := match cs with
    | '-' :: rest => (true, rest)
    | _ => (false, cs)
  match parseDigits cs1 0 0 with
  | none => none
  | some (intPart, _, cs2) =>
    let (mant, fracLen, cs3) := match cs2 with
      | '.' :: rest =>
        match parseDigits rest 0 0 with
        | some (fracPart, flen, cs3) => (intPart * 10 ^ flen + fracPart, flen, cs3)
        | none => (intPart, 0, '.' :: rest)
      | _ => (intPart, 0, cs2)
    let (expVal, cs4) : Int × List Char := match cs3 with
      | 'e' :: rest | 'E' :: rest =>
        let (eneg, rest1) := match rest with
          | '-' :: r => (true, r)
          | '+' :: r => (false, r)
          | _ => (false, rest)
        match parseDigits rest1 0 0 with
        | some (e, _, cs4) => (if eneg then -(e : Int) else (e : Int), cs4)
        | none => (0, cs3)
      | _ => (0, cs3)
    let q : Rat := (if neg then -(mant : Rat) else (mant : Rat)) * (10 : Rat) ^ (expVal - (fracLen : Int))
    some (q, cs4)

mutual

/-- Parse one JSON value (leading whitespace allowed), fuel-bounded. -/
def parseJsonValue : Nat → List Char → Option (JSValue × List Char)
  | 0, _ => none
  | Nat.succ fuel, cs =>
    match skipWs cs with
    | '"' :: rest => (parseStrBody rest).map (fun p => (.jstr (String.mk p.1), p.2))
    | 't' :: 'r' :: 'u' :: 'e' :: rest => some (.jbool true, rest)
    | 'f' :: 'a' :: 'l' :: 's' :: 'e' :: rest => some (.jbool false, rest)
    | 'n' :: 'u' :: 'l' :: 'l' :: rest => some (.jnull, rest)
    | '[' :: rest =>
      (match skipWs rest with
       | ']' :: rest2 => some (.jarr [], rest2)
       | other => (parseJsonElems fuel other).map (fun p => (.jarr p.1, p.2)))
    | '{' :: rest =>
      (match skipWs rest with
       | '}' :: rest2 => some (.jobj [], rest2)
       | other => (parseJsonMembers fuel other).map (fun p => (.jobj p.1, p.2)))
    | c :: rest =>
      if c == '-' || c.isDigit then (parseNumber (c :: rest)).map (fun p => (.jnum p.1, p.2))
      else none
    | [] => none

/-- Parse the elements of a non-empty JSON array (after the opening
bracket), fuel-bounded. -/
def parseJsonElems : Nat → List Char → Option (List JSValue × List Char)
  | 0, _ => none
  | Nat.succ fuel, cs =>
    match parseJsonValue fuel cs with
    | none => none
    | some (v, rest) =>
      match skipWs rest with
      | ',' :: rest2 => (parseJsonElems fuel rest2).map (fun p => (v :: p.1, p.2))
      | ']' :: rest2 => some ([v], rest2)
      | _ => none

/-- Parse the members of a non-empty JSON object (after the opening brace),
fuel-bounded. -/
def parseJsonMembers : Nat → List Char → Option (List (String × JSValue) × List Char)
  | 0, _ => none
  | Nat.succ fuel, cs =>
    match skipWs cs with
    | '"' :: rest =>
      (match parseStrBody rest with
       | none => none
       | some (key, rest2) =>
         match skipWs rest2 with
         | ':' :: rest3 =>
           (match parseJsonValue fuel rest3 with
            | none => none
            | some (v, rest4) =>
              match skipWs rest4 with
              | ',' :: rest5 =>
                (parseJsonMembers fuel rest5).map (fun p => ((String.mk key, v) :: p.1, p.2))
              | '}' :: rest5 => some ([(String.mk key, v)], rest5)
              | _ => none)
         | _ => none)
    | _ => none

end

/-- `JSON.parse`: parse a complete JSON text (only whitespace may follow the
value).  The fuel `2 * length + 2` is enough for any input, since every other
recursion level consumes at least one character. -/
def jsonParse (s : String) : Option JSValue :=
  match parseJsonValue (2 * s.toList.length + 2) s.toList with
  | some (v, rest) => if skipWs rest = [] then some v else none
  | none => none

theorem skipWs_length_le (cs : List Char) : (skipWs cs).length ≤ cs.length := by
  induction cs with
  | nil => simp [skipWs]
  | cons c rest ih =>
    simp only [skipWs, List.dropWhile] at *
    split
    · exact Nat.le_succ_of_le ih
    · simp

theorem parseStrBody_shrink : ∀ (cs content rest : List Char),
    parseStrBody cs = some (content, rest) → content.length < cs.length := by
  intro cs
  induction cs using parseStrBody.induct with
  | case4 c hq hb e hu h1 h2 h3 h4 rest3 hhex ih =>
    intro content rest h
    rw [parseStrBody.eq_def] at h
    simp_all only [Option.map_eq_some', if_true, if_false]
    rw [if_neg (by simp)] at h
    rw [Option.map_eq_some'] at h
    obtain ⟨⟨a1, a2⟩, ha, hpair⟩ := h
    injection hpair with hc hr
    subst hc
    have := ih a1 a2 ha
    simp only [List.length_cons]
    omega
  | case7 c hq hb e rest2 hu d hesc ih =>
    intro content rest h
    rw [parseStrBody.eq_def] at h
    simp_all only [Option.map_eq_some', if_true, if_false]
    rw [if_neg (by simp)] at h
    rw [Option.map_eq_some'] at h
    obtain ⟨⟨a1, a2⟩, ha, hpair⟩ := h
    injection hpair with hc hr
    subst hc
    have := ih a1 a2 ha
    simp only [List.length_cons]
    omega
  | case10 c rest2 hq hb hc32 ih =>
    intro content rest h
    rw [parseStrBody.eq_def] at h
    simp_all only [Option.map_eq_some', if_true, if_false]
    rw [if_neg (by simp)] at h
    rw [Option.map_eq_some'] at h
    obtain ⟨⟨a1, a2⟩, ha, hpair⟩ := h
    injection hpair with hc hr
    subst hc
    have := ih a1 a2 ha
    simp only [List.length_cons]
    omega
  | _ =>
    intro content rest h
    rw [parseStrBody.eq_def] at h
    simp_all only [Option.map_eq_some', if_true, if_false]
    try rw [if_neg (by simp)] at h
    simp_all
    try omega

theorem parseJsonValue_str_shrink : ∀ (fuel : Nat) (cs : List Char) (t : String)
    (rest : List Char), parseJsonValue fuel cs = some (.jstr t, rest) → t.length < cs.length := by
  intro fuel cs t rest h
  cases fuel with
  | zero => simp [parseJsonValue] at h
  | succ f =>
    simp only [parseJsonValue] at h
    split at h
    · rename_i body heq
      simp only [Option.map_eq_some'] at h
      obtain ⟨⟨a1, a2⟩, ha, hpair⟩ := h
      injection hpair with hv hr
      injection hv with hs
      have hlen : t.length = a1.length := by
        rw [← hs]
        simp [String.length]
      have h1 := parseStrBody_shrink body a1 a2 ha
      have h2 : body.length + 1 ≤ cs.length := by
        have h3 := skipWs_length_le cs
        rw [heq] at h3
        simpa using h3
      omega
    · simp_all
    · simp_all
    · simp_all
    · split at h
      · simp_all
      · simp only [Option.map_eq_some'] at h
        obtain ⟨⟨a1, a2⟩, ha, hpair⟩ := h
        simp at hpair
    · split at h
      · simp_all
      · simp only [Option.map_eq_some'] at h
        obtain ⟨⟨a1, a2⟩, ha, hpair⟩ := h
        simp at hpair
    · split at h
      · simp only [Option.map_eq_some'] at h
        obtain ⟨⟨a1, a2⟩, ha, hpair⟩ := h
        simp at hpair
      · simp_all
    · simp_all

theorem jsonParse_str_shrink (s t : String) (h : jsonParse s = some (.jstr t)) :
    t.length < s.length := by
  unfold jsonParse at h
  split at h
  · rename_i v rest heq
    split at h
    · injection h with hv
      subst hv
      have := parseJsonValue_str_shrink (2 * s.toList.length + 2) s.toList t rest heq
      exact this
    · cases h
  · cases h

/-! ## `extractMCPParams` (src/param-utils.ts lines 9-71) -/

/-- The metadata keys filtered out by `extractMCPParams`
(`const metadata = ['signal', 'requestId', '_meta', '_context']`). -/
def metadataKeys : List String := ["signal", "requestId", "_meta", "_context"]

/-- `hasOnlyMetadata` (lines 23-24 of param-utils.ts): the object is
non-empty and every key is a metadata key. -/
def metadataOnly (fields : List (String × JSValue)) : Bool :=
  !(fields.map Prod.fst).isEmpty &&
    (fields.map Prod.fst).all (fun k => metadataKeys.contains k)

/-- The object case of `extractMCPParams` (lines 18-56 of param-utils.ts):
metadata-only detection, the `params` / `arguments` / `method`+`params`
nesting checks, then the metadata-filtering fallthrough.  Reached only for a
plain (truthy, non-array) object, so it takes the field list directly. -/
def extractFromObject (fields : List (String × JSValue)) : JSValue :=
  if metadataOnly fields then .jobj []
  else if (objGet fields "params").truthy && (objGet fields "params").typeofIsObject then
    objGet fields "params"
  else if (objGet fields "arguments").truthy && (objGet fields "arguments").typeofIsObject then
    objGet fields "arguments"
  else if (objGet fields "method").truthy && (objGet fields "params").truthy then
    objGet fields "params"
  else .jobj (fields.filter (fun kv => !(metadataKeys.contains kv.1)))

/-- Recursion measure for `extractMCPParams`: only the string branch
recurses, through `JSON.parse`, and a parsed nested string is strictly
shorter than its source text. -/
def strMeasure : JSValue → Nat
  | .jstr s => s.length + 1
  | _ => 0

/-- `extractMCPParams` (param-utils.ts lines 9-71).  Branches map to the
source as follows: falsy inputs (`undefined`, `null`, `false`, `0`, `""`)
hit `if (!rawParams) return {}` — this is why `jbool`/`jnum` falsy values
and the empty string return `{}`; truthy non-object non-string values
(`true`, nonzero numbers) fall through to the final `return {}`; arrays are
excluded from the object branch by `!Array.isArray` and also fall through to
`return {}`; plain objects go to `extractFromObject`; non-empty strings go
through `JSON.parse` and recurse (`return {}` when parsing throws). -/
def extractMCPParams : JSValue → JSValue
  | .jundefined => .jobj []
  | .jnull => .jobj []
  | .jbool _ => .jobj []
  | .jnum _ => .jobj []
  | .jarr _ => .jobj []
  | .jobj fields => extractFromObject fields
  | .jstr s =>
    if s = "" then .jobj []
    else
      match h : jsonParse s with
      | some parsed => extractMCPParams parsed
      | none => .jobj []
termination_by v => strMeasure v
decreasing_by
  have hlt : strMeasure parsed < s.length + 1 := by
    cases parsed with
    | jstr t =>
      have := jsonParse_str_shrink s t h
      simp only [strMeasure]
      omega
    | jundefined => simp [strMeasure]
    | jnull => simp [strMeasure]
    | jbool b => simp [strMeasure]
    | jnum q => simp [strMeasure]
    | jarr l => simp [strMeasure]
    | jobj fs => simp [strMeasure]
  simpa [strMeasure] using hlt

/-! ## Identity context (src/types.ts)

`UserProps = { claims: JWTPayload; tokenSet: {...} }`.  Of the `JWTPayload`
claims only `sub` (an optional string in `jose`) is ever read by the server,
so the claims record is modelled by that member. -/

/-- The token set carried in `UserProps` (src/types.ts). -/
structure TokenSet where
  accessToken : String
  accessTokenTTL : Option Nat
  idToken : String
  refreshToken : String
deriving DecidableEq, Repr

/-- The verified JWT claims attached to a session; only `sub` is consumed
by the tools (`this.props?.claims?.sub`). -/
structure Claims where
  sub : Option String
deriving DecidableEq, Repr

/-- `UserProps` from src/types.ts — the per-user identity context (the
spec's `SessionProps`). -/
structure UserProps where
  claims : Claims
  tokenSet : TokenSet
deriving DecidableEq, Repr

/-- The authentication guard every tool runs:
`!this.props?.claims?.sub` is truthy exactly when the optional chain hits
`undefined` or the subject is the empty string.  Returns the authenticated
subject when the guard passes. -/
def authSub (props : Option UserProps) : Option String :=
  match props with
  | none => none
  | some p =>
    match p.claims.sub with
    | none => none
    | some s => if s = "" then none else some s

/-! ## Database model (D1 `specifications` table)

Schema from migrations/0001_create_specifications_prod_schema.sql:
`id INTEGER PRIMARY KEY AUTOINCREMENT`, text columns, `user_id TEXT`,
`tags` a JSON array stored as text, datetime strings for the timestamps.
`AUTOINCREMENT` allocates ids from a monotone per-table sequence
(`sqlite_sequence`), modelled by the `seq` field; `datetime('now')` is
modelled by an explicit `now : String` argument in `"YYYY-MM-DD HH:MM:SS"`
shape. -/

/-- One row of the `specifications` table. -/
structure SpecRow where
  id : Nat
  title : String
  content : String
  version : String
  description : Option String
  tags : String
  user_id : String
  created_at : String
  updated_at : String
deriving DecidableEq, Repr

/-- The `specifications` table plus its `AUTOINCREMENT` sequence (the
largest id ever allocated). -/
structure Database where
  rows : List SpecRow
  seq : Nat
deriving DecidableEq, Repr

/-- The rows of one user, i.e. the `WHERE user_id = ?` restriction every
tool query carries. -/
def rowsOf (sub : String) (db : Database) : List SpecRow :=
  db.rows.filter (fun r => r.user_id == sub)

/-- The rows of everyone else (used to state that a user's operations never
touch other users' rows). -/
def rowsNotOf (sub : String) (db : Database) : List SpecRow :=
  db.rows.filter (fun r => !(r.user_id == sub))

/-- Insert one row into a list sorted by `updated_at` descending. -/
def insertByUpdatedDesc (r : SpecRow) : List SpecRow → List SpecRow
  | [] => [r]
  | x :: xs => if x.updated_at ≤ r.updated_at then r :: x :: xs else x :: insertByUpdatedDesc r xs

/-- `ORDER BY updated_at DESC` (insertion sort; deterministic stand-in for
SQLite's unspecified tie order). -/
def sortByUpdatedDesc (rows : List SpecRow) : List SpecRow :=
  rows.foldr insertByUpdatedDesc []

/-- JSON string escaping for one character (as in `JSON.stringify`). -/
def jsonEscapeChar (c : Char) : List Char :=
  if c == '"' then ['\\', '"']
  else if c == '\\' then ['\\', '\\']
  else if c == '\n' then ['\\', 'n']
  else if c == '\r' then ['\\', 'r']
  else if c == '\t' then ['\\', 't']
  else if c.toNat < 32 then
    ['\\', 'u', '0', '0',
      (if c.toNat / 16 < 10 then Char.ofNat ('0'.toNat + c.toNat / 16)
       else Char.ofNat ('a'.toNat + c.toNat / 16 - 10)),
      (if c.toNat % 16 < 10 then Char.ofNat ('0'.toNat + c.toNat % 16)
       else Char.ofNat ('a'.toNat + c.toNat % 16 - 10))]
  else [c]

/-- `JSON.stringify` of a string. -/
def jsonQuote (s : String) : String :=
  "\"" ++ String.mk (s.data.flatMap jsonEscapeChar) ++ "\""

/-- `JSON.stringify` of a string array (how `tags` are serialised before
being stored). -/
def jsonStringifyStrings (ts : List String) : String :=
  "[" ++ String.intercalate "," (ts.map jsonQuote) ++ "]"

/-- Containment of `needle` in `hay` (character lists). -/
def listContainsSub (needle : List Char) : List Char → Bool
  | [] => needle.isEmpty
  | c :: rest => needle.isPrefixOf (c :: rest) || listContainsSub needle rest

/-- SQLite `hay LIKE '%' || pat || '%'`: case-insensitive substring match
(for patterns without wildcard characters, which is how
`search_specifications` builds them). -/
def likeContains (hay pat : String) : Bool :=
  listContainsSub pat.toLower.data hay.toLower.data

/-- SQLite `date()` applied to a `"YYYY-MM-DD HH:MM:SS"` datetime string:
the first ten characters. -/
def sqliteDate (s : String) : String := s.take 10

/-! ## MCP tool handlers (src/index-auth0-streamable.ts)

Each handler returns one JSON object serialised into a text content block;
the model keeps that object as data.  Zod-level normalisation (defaults
`version = '1.0.0'`, `tags = []`, `limit = 10`, `offset = 0`) happens before
the handler body, so the model takes the resolved argument values. -/

/-- The response object a tool handler serialises back to the client. -/
inductive ToolResponse (α : Type) where
  | authRequired (error : String) (message : String) (authInfo : Option (Bool × Bool × Bool))
  | failure (error : String) (message : String) (found : Option (Bool × Bool))
  | dbError (error : String) (message : String)
  | ok (payload : α)
deriving DecidableEq, Repr

/-- `{ success: true, id: result.meta.last_row_id }`. -/
structure CreatePayload where
  success : Bool
  id : Nat
deriving DecidableEq, Repr

/-- One row of the `list_specifications` SELECT (id, title, version, tags,
created_at, updated_at); `tags` is the stored JSON text, which the handler
additionally passes through `JSON.parse` for display — a pure per-row
transformation kept raw here. -/
structure ListedSpec where
  id : Nat
  title : String
  version : String
  tags : String
  created_at : String
  updated_at : String
deriving DecidableEq, Repr

/-- `{ success, message }` returned by update. -/
structure UpdatePayload where
  success : Bool
  message : String
deriving DecidableEq, Repr

/-- `{ success, message }` returned by delete. -/
structure DeletePayload where
  success : Bool
  message : String
deriving DecidableEq, Repr

/-- One row of the `search_specifications` SELECT (id, title, version, tags,
created_at). -/
structure SearchedSpec where
  id : Nat
  title : String
  version : String
  tags : String
  created_at : String
deriving DecidableEq, Repr

/-- `{ results, count, query }` returned by search. -/
structure SearchPayload where
  results : List SearchedSpec
  count : Nat
  query : String
deriving DecidableEq, Repr

/-- The `differences` object of `compare_specifications`. -/
structure CompareDifferences where
  title : Bool
  content : Bool
  version : Bool
  tags : Bool
deriving DecidableEq, Repr

/-- `{ specification1, specification2, differences }` returned by compare. -/
structure ComparePayload where
  specification1 : SpecRow
  specification2 : SpecRow
  differences : CompareDifferences
deriving DecidableEq, Repr

/-- `{ month, created, updated, total_activity, period }` returned by the
monthly report. -/
structure ReportPayload where
  month : String
  created : Nat
  updated : Nat
  total_activity : Nat
  periodStart : String
  periodEnd : String
deriving DecidableEq, Repr

/-- `{ success, message, logged_out_user }` returned by logout. -/
structure LogoutPayload where
  success : Bool
  message : String
  logged_out_user : String
deriving DecidableEq, Repr

/-- `create_specification` (lines 23-78): INSERT a row owned by the caller;
`last_row_id` is the freshly allocated AUTOINCREMENT id. -/
def create_specification (props : Option UserProps) (db : Database)
    (title content version : String) (tags : List String)
    (description : Option String) (now : String) :
    ToolResponse CreatePayload × Database :=
  match authSub props with
  | none =>
    (.authRequired "Authentication required"
      "User must be authenticated to create specifications" none, db)
  | some sub =>
    let newId := db.seq + 1
    let row : SpecRow :=
      { id := newId, title := title, content := content, version := version,
        description := description, tags := jsonStringifyStrings tags,
        user_id := sub, created_at := now, updated_at := now }
    (.ok { success := true, id := newId }, { rows := db.rows ++ [row], seq := newId })

/-- `list_specifications` (lines 80-142): SELECT the caller's rows ordered
by `updated_at` DESC with LIMIT/OFFSET. -/
def list_specifications (props : Option UserProps) (db : Database)
    (limit offset : Nat) : ToolResponse (List ListedSpec) × Database :=
  match authSub props with
  | none =>
    (.authRequired "Authentication required"
      "User must be authenticated to list specifications"
      (some (props.isSome, props.isSome, false)), db)
  | some sub =>
    let page := ((sortByUpdatedDesc (rowsOf sub db)).drop offset).take limit
    (.ok (page.map (fun r =>
      { id := r.id, title := r.title, version := r.version, tags := r.tags,
        created_at := r.created_at, updated_at := r.updated_at })), db)

/-- `get_specification` (lines 144-210): SELECT * by id restricted to the
caller's rows. -/
def get_specification (props : Option UserProps) (db : Database) (id : Nat) :
    ToolResponse SpecRow × Database :=
  match authSub props with
  | none =>
    (.authRequired "Authentication required"
      "User must be authenticated to get specifications" none, db)
  | some sub =>
    match (rowsOf sub db).find? (fun r => r.id == id) with
    | none =>
      (.failure "Specification not found"
        ("No specification found with ID " ++ toString id) none, db)
    | some r => (.ok r, db)

/-- The SET clause `update_specification` builds for one matched row:
title/content/version only when truthy (so the empty string is skipped),
tags only when non-empty, plus `updated_at = datetime("now")`. -/
def applyUpdate (title content version : Option String)
    (tags : Option (List String)) (now : String) (r : SpecRow) : SpecRow :=
  { r with
    title := match title with
      | some t => if t = "" then r.title else t
      | none => r.title,
    content := match content with
      | some c => if c = "" then r.content else c
      | none => r.content,
    version := match version with
      | some v => if v = "" then r.version else v
      | none => r.version,
    tags := match tags with
      | some ts => if ts.isEmpty then r.tags else jsonStringifyStrings ts
      | none => r.tags,
    updated_at := now }

/-- Whether an optional string argument is truthy (`if (title)` on a
`string | undefined`). -/
def truthyStr : Option String → Bool
  | some s => !(s == "")
  | none => false

/-- Whether the tags argument passes `if (tags && tags.length > 0)`. -/
def truthyTags : Option (List String) → Bool
  | some ts => !ts.isEmpty
  | none => false

/-- `update_specification` (lines 212-305): build the SET list from the
truthy arguments; with an empty SET list answer "No updates provided" and
touch nothing; otherwise UPDATE the caller's row with that id
(`result.meta.changes` is the number of matched rows). -/
def update_specification (props : Option UserProps) (db : Database) (id : Nat)
    (title content version : Option String) (tags : Option (List String))
    (now : String) : ToolResponse UpdatePayload × Database :=
  match authSub props with
  | none =>
    (.authRequired "Authentication required"
      "User must be authenticated to update specifications" none, db)
  | some sub =>
    if !(truthyStr title || truthyStr content || truthyStr version || truthyTags tags) then
      (.failure "No updates provided"
        "At least one field to update must be provided" none, db)
    else
      let changes := ((rowsOf sub db).filter (fun r => r.id == id)).length
      let rows2 := db.rows.map (fun r =>
        if r.id == id && r.user_id == sub then applyUpdate title content version tags now r
        else r)
      (.ok { success := decide (changes > 0),
             message := if changes > 0 then "Specification updated successfully"
                        else "No specification found or no changes made" },
        { db with rows := rows2 })

/-- `delete_specification` (lines 307-361): DELETE the caller's row with
that id. -/
def delete_specification (props : Option UserProps) (db : Database) (id : Nat) :
    ToolResponse DeletePayload × Database :=
  match authSub props with
  | none =>
    (.authRequired "Authentication required"
      "User must be authenticated to delete specifications" none, db)
  | some sub =>
    let changes := ((rowsOf sub db).filter (fun r => r.id == id)).length
    let rows2 := db.rows.filter (fun r => !(r.id == id && r.user_id == sub))
    (.ok { success := decide (changes > 0),
           message := if changes > 0 then "Specification deleted successfully"
                      else "No specification found with that ID" },
      { db with rows := rows2 })

/-- `search_specifications` (lines 363-422): LIKE on title or content over
the caller's rows, ordered by `updated_at` DESC, limited. -/
def search_specifications (props : Option UserProps) (db : Database)
    (query : String) (limit : Nat) : ToolResponse SearchPayload × Database :=
  match authSub props with
  | none =>
    (.authRequired "Authentication required"
      "User must be authenticated to search specifications" none, db)
  | some sub =>
    let hits := (sortByUpdatedDesc ((rowsOf sub db).filter (fun r =>
      likeContains r.title query || likeContains r.content query))).take limit
    let results := hits.map (fun r =>
      { id := r.id, title := r.title, version := r.version, tags := r.tags,
        created_at := r.created_at : SearchedSpec })
    (.ok { results := results, count := results.length, query := query }, db)

/-- `compare_specifications` (lines 424-499): fetch both ids within the
caller's rows; on success report fieldwise differences
(`JSON.stringify(tags)` equality collapses to equality of the stored tag
text). -/
def compare_specifications (props : Option UserProps) (db : Database)
    (id1 id2 : Nat) : ToolResponse ComparePayload × Database :=
  match authSub props with
  | none =>
    (.authRequired "Authentication required"
      "User must be authenticated to compare specifications" none, db)
  | some sub =>
    let spec1 := (rowsOf sub db).find? (fun r => r.id == id1)
    let spec2 := (rowsOf sub db).find? (fun r => r.id == id2)
    match spec1, spec2 with
    | some a, some b =>
      (.ok { specification1 := a, specification2 := b,
             differences :=
               { title := !(a.title == b.title),
                 content := !(a.content == b.content),
                 version := !(a.version == b.version),
                 tags := !(a.tags == b.tags) } }, db)
    | _, _ =>
      (.failure "Specifications not found" "One or both specifications not found"
        (some (spec1.isSome, spec2.isSome)), db)

/-- `monthly_specification_report` (lines 501-564): COUNT the caller's rows
created (resp. touched) in `[month-01, month-31]` by SQLite `date()`/string
comparison. -/
def monthly_specification_report (props : Option UserProps) (db : Database)
    (month : String) : ToolResponse ReportPayload × Database :=
  match authSub props with
  | none =>
    (.authRequired "Authentication required"
      "User must be authenticated to generate reports" none, db)
  | some sub =>
    let startDate := month ++ "-01"
    let endDate := month ++ "-31"
    let created := ((rowsOf sub db).filter (fun r =>
      startDate ≤ sqliteDate r.created_at && sqliteDate r.created_at ≤ endDate)).length
    let updated := ((rowsOf sub db).filter (fun r =>
      (startDate ≤ sqliteDate r.updated_at && sqliteDate r.updated_at ≤ endDate) &&
        !(sqliteDate r.created_at == sqliteDate r.updated_at))).length
    (.ok { month := month, created := created, updated := updated,
           total_activity := created + updated,
           periodStart := startDate, periodEnd := endDate }, db)

/-! ## Logout and the broker-issued token (claim C1)

The `logout` tool handler is in src (lines 567-618).  The broker-issued
token validation that turns a bearer token into `this.props` lives in the
OAuth provider library / auth.ts, outside src, so `currentUser` is modelled
from the spec. -/

/-- The broker's token-to-session map (what validates each request's bearer
token). -/
abbrev TokenStore := List (String × UserProps)

/-- Modelled from the spec: the downstream collaborator interface
`currentUser() -> SessionProps | Unauthenticated` — the broker-issued token
presented by the caller is looked up and its bound `SessionProps` returned;
an unknown token is `Unauthenticated` (`none`).  The broker/auth.ts side of
this lookup is not in src. -/
def currentUser (store : TokenStore) (token : String) : Option UserProps :=
  (store.find? (fun p => p.1 == token)).map Prod.snd

/-- The `logout` tool handler (lines 567-618), faithfully including its
effect on the token store: the body checks authentication, reads
`this.props.claims.sub`, and returns a success message — no statement
deletes or mutates any token or session state (the comment "Clear tokens
from KV storage" has no accompanying code), so the store passes through
unchanged. -/
def logoutHandler (props : Option UserProps) (store : TokenStore) :
    ToolResponse LogoutPayload × TokenStore :=
  match authSub props with
  | none =>
    (.authRequired "Not authenticated" "User is not currently authenticated" none, store)
  | some sub =>
    (.ok { success := true,
           message := "Successfully logged out. You will need to re-authenticate for the next request.",
           logged_out_user := sub }, store)

/-- One full Scenario-D step: the caller presents a broker-issued token, the
provider resolves it to session props, and the `logout` tool runs. -/
def logoutStep (store : TokenStore) (token : String) :
    ToolResponse LogoutPayload × TokenStore :=
  logoutHandler (currentUser store token) store

/-! ## The catch branches (claim C8)

Every tool body wraps its database work in try/catch; the catch branch
answers `{ error: "Database error", message: error instanceof Error ?
error.message : "<generic>" }`.  The thrown value and the DB outcome are
modelled explicitly to embed that branch. -/

/-- A JavaScript thrown value as the catch branch discriminates it:
an `Error` carrying a message, or anything else. -/
inductive JSThrown where
  | errObj (message : String)
  | nonError
deriving DecidableEq, Repr

/-- `error instanceof Error ? error.message : fallback`. -/
def thrownMessage (t : JSThrown) (fallback : String) : String :=
  match t with
  | .errObj m => m
  | .nonError => fallback

/-- The try/catch wrapper of `create_specification` (lines 52-76) as a
function of the database call's outcome. -/
def runCreateSpecification (dbOutcome : Except JSThrown Nat) :
    ToolResponse CreatePayload :=
  match dbOutcome with
  | .ok rowId => .ok { success := true, id := rowId }
  | .error e => .dbError "Database error" (thrownMessage e "Failed to create specification")

/-- The try/catch wrapper of `list_specifications` (lines 111-140) as a
function of the database call's outcome. -/
def runListSpecifications (dbOutcome : Except JSThrown (List ListedSpec)) :
    ToolResponse (List ListedSpec) :=
  match dbOutcome with
  | .ok specs => .ok specs
  | .error e => .dbError "Database error" (thrownMessage e "Failed to list specifications")

/-! ## PKCE generator (spec §4.1)

auth.ts is not in src, so the PKCE component is modelled from the spec:
`challengeFor` is "SHA-256 then base64url, no padding".  SHA-256 is
implemented in full over byte lists (32-bit words as `Nat` reduced
`% 2 ^ 32`), so the transform is the real one. -/

/-- Addition modulo `2 ^ 32`. -/
def add32 (a b : Nat) : Nat := (a + b) % 4294967296

/-- Right rotation of a 32-bit word. -/
def rotr32 (n x : Nat) : Nat :=
  ((x >>> n) ||| ((x <<< (32 - n)) % 4294967296)) % 4294967296

/-- SHA-256 σ0. -/
def smallSigma0 (x : Nat) : Nat := rotr32 7 x ^^^ rotr32 18 x ^^^ (x >>> 3)

/-- SHA-256 σ1. -/
def smallSigma1 (x : Nat) : Nat := rotr32 17 x ^^^ rotr32 19 x ^^^ (x >>> 10)

/-- SHA-256 Σ0. -/
def bigSigma0 (x : Nat) : Nat := rotr32 2 x ^^^ rotr32 13 x ^^^ rotr32 22 x

/-- SHA-256 Σ1. -/
def bigSigma1 (x : Nat) : Nat := rotr32 6 x ^^^ rotr32 11 x ^^^ rotr32 25 x

/-- SHA-256 Ch. -/
def chWord (x y z : Nat) : Nat := (x &&& y) ^^^ ((4294967295 ^^^ x) &&& z)

/-- SHA-256 Maj. -/
def majWord (x y z : Nat) : Nat := (x &&& y) ^^^ (x &&& z) ^^^ (y &&& z)

/-- The SHA-256 round constants. -/
def sha256K : List Nat :=
  [1116352408, 1899447441, 3049323471, 3921009573, 961987163,
   1508970993, 2453635748, 2870763221, 3624381080, 310598401,
   607225278, 1426881987, 1925078388, 2162078206, 2614888103,
   3248222580, 3835390401, 4022224774, 264347078, 604807628,
   770255983, 1249150122, 1555081692, 1996064986, 2554220882,
   2821834349, 2952996808, 3210313671, 3336571891, 3584528711,
   113926993, 338241895, 666307205, 773529912, 1294757372,
   1396182291, 1695183700, 1986661051, 2177026350, 2456956037,
   2730485921, 2820302411, 3259730800, 3345764771, 3516065817,
   3600352804, 4094571909, 275423344, 430227734, 506948616,
   659060556, 883997877, 958139571, 1322822218, 1537002063,
   1747873779, 1955562222, 2024104815, 2227730452, 2361852424,
   2428436474, 2756734187, 3204031479, 3329325298]

/-- The SHA-256 initial hash value. -/
def sha256H0 : List Nat :=
  [1779033703, 3144134277, 1013904242,
   2773480762, 1359893119, 2600822924,
   528734635, 1541459225]

/-- Big-endian 64-bit byte encoding (for the padded length). -/
def be64 (n : Nat) : List Nat :=
  [(n >>> 56) % 256, (n >>> 48) % 256, (n >>> 40) % 256, (n >>> 32) % 256,
   (n >>> 24) % 256, (n >>> 16) % 256, (n >>> 8) % 256, n % 256]

/-- SHA-256 padding: append `0x80`, zeros to 56 mod 64, then the bit length
big-endian. -/
def sha256pad (msg : List Nat) : List Nat :=
  msg ++ [0x80] ++ List.replicate ((64 - ((msg.length + 9) % 64)) % 64) 0 ++ be64 (8 * msg.length)

/-- Big-endian 32-bit words from bytes. -/
def wordsOfBytes : List Nat → List Nat
  | b1 :: b2 :: b3 :: b4 :: rest =>
    (((b1 * 256 + b2) * 256 + b3) * 256 + b4) :: wordsOfBytes rest
  | _ => []

/-- One message-schedule extension step: append
`σ1(w[t-2]) + w[t-7] + σ0(w[t-15]) + w[t-16]`. -/
def extendStep (w : List Nat) : List Nat :=
  w ++ [add32 (add32 (smallSigma1 (w.getD (w.length - 2) 0)) (w.getD (w.length - 7) 0))
    (add32 (smallSigma0 (w.getD (w.length - 15) 0)) (w.getD (w.length - 16) 0))]

/-- Extend a 16-word block to the 64-word message schedule (48 extension
steps). -/
def extendTo64 (w : List Nat) : List Nat :=
  (List.range 48).foldl (fun acc _ => extendStep acc) w

/-- One SHA-256 compression round; the state is `[a,b,c,d,e,f,g,h]` and
`kw` is the round constant already added to the schedule word. -/
def compressRound (st : List Nat) (kw : Nat) : List Nat :=
  match st with
  | [a, b, c, d, e, f, g, h] =>
    let t1 := add32 h (add32 (bigSigma1 e) (add32 (chWord e f g) kw))
    let t2 := add32 (bigSigma0 a) (majWord a b c)
    [add32 t1 t2, a, b, c, add32 d t1, e, f, g]
  | other => other

/-- Compress one 16-word block into the running hash state. -/
def processBlock (hstate : List Nat) (block : List Nat) : List Nat :=
  let w := extendTo64 block
  let st := (List.zipWith add32 sha256K w).foldl compressRound hstate
  List.zipWith add32 hstate st

/-- Split a word stream into 16-word blocks (fuel-bounded by the length so
the recursion is structural). -/
def chunksOf16 : Nat → List Nat → List (List Nat)
  | 0, _ => []
  | _, [] => []
  | Nat.succ fuel, ws => ws.take 16 :: chunksOf16 fuel (ws.drop 16)

/-- Fold all 16-word blocks of the padded message. -/
def processAll (state : List Nat) (words : List Nat) : List Nat :=
  (chunksOf16 words.length words).foldl processBlock state

/-- Big-endian bytes of a 32-bit word. -/
def bytesOfWord (w : Nat) : List Nat :=
  [(w >>> 24) % 256, (w >>> 16) % 256, (w >>> 8) % 256, w % 256]

/-- SHA-256 of a byte list (bytes out). -/
def sha256 (msg : List Nat) : List Nat :=
  (processAll sha256H0 (wordsOfBytes (sha256pad msg))).flatMap bytesOfWord

/-- The base64url alphabet (RFC 4648 §5). -/
def b64urlChar (n : Nat) : Char :=
  "ABCDEFGHIJKLMNOPQRSTUVWXYZabcdefghijklmnopqrstuvwxyz0123456789-_".data.getD n 'A'

/-- Base64url digits of a byte list, unpadded. -/
def b64urlGo : List Nat → List Char
  | b1 :: b2 :: b3 :: rest =>
    b64urlChar (b1 >>> 2) :: b64urlChar (((b1 % 4) <<< 4) ||| (b2 >>> 4)) ::
      b64urlChar (((b2 % 16) <<< 2) ||| (b3 >>> 6)) :: b64urlChar (b3 % 64) :: b64urlGo rest
  | [b1, b2] =>
    [b64urlChar (b1 >>> 2), b64urlChar (((b1 % 4) <<< 4) ||| (b2 >>> 4)),
     b64urlChar ((b2 % 16) <<< 2)]
  | [b1] => [b64urlChar (b1 >>> 2), b64urlChar ((b1 % 4) <<< 4)]
  | [] => []

/-- Base64url encoding without padding. -/
def base64urlNoPad (bytes : List Nat) : String :=
  String.mk (b64urlGo bytes)

/-- UTF-8 bytes of one character. -/
def utf8EncodeChar (c : Char) : List Nat :=
  let n := c.toNat
  if n < 128 then [n]
  else if n < 2048 then [192 + n / 64, 128 + n % 64]
  else if n < 65536 then [224 + n / 4096, 128 + (n / 64) % 64, 128 + n % 64]
  else [240 + n / 262144, 128 + (n / 4096) % 64, 128 + (n / 64) % 64, 128 + n % 64]

/-- UTF-8 bytes of a string (the `TextEncoder` step before hashing the
verifier). -/
def utf8Encode (s : String) : List Nat := s.data.flatMap utf8EncodeChar

/-- Modelled from the spec: `challengeFor(codeVerifier) -> codeChallenge`
"applies the mandated one-way transform (SHA-256 then base64url, no
padding)" (§4.1); auth.ts is not in src. -/
def challengeFor (codeVerifier : String) : String :=
  base64urlNoPad (sha256 (utf8Encode codeVerifier))

/-- A PKCE verifier/challenge pair as stored in an authorization
transaction. -/
structure PkcePair where
  codeVerifier : String
  codeChallenge : String
deriving DecidableEq, Repr

/-- Modelled from the spec: the PKCE generator produces the verifier from
the secure random source and derives the challenge from it with
`challengeFor` (§4.1, §4.7 step 1); auth.ts is not in src, and randomness
is a parameter — `verifier` is whatever `generateVerifier()` returned. -/
def generatePkcePair (verifier : String) : PkcePair :=
  { codeVerifier := verifier, codeChallenge := challengeFor verifier }

/-! ## Transaction store, consent and callback (spec §4.2, §4.5, §4.7, §7)

auth.ts is not in src; these components are modelled from the spec.  Time
is an explicit `now : Nat` and expiry is enforced lazily at read/use time
by TTL comparison (spec §5). -/

/-- The error kinds of spec §7. -/
inductive AuthError where
  | transactionNotFound
  | transactionExpired
  | stateMismatch
  | consentTokenInvalid
  | upstreamExchangeFailed
  | claimsInvalid
  | missingSubjectClaim
  | refreshTokenRevoked
  | unauthenticated
deriving DecidableEq, Repr

/-- Modelled from the spec: an `AuthorizationTransaction` (§3) — PKCE pair,
single-use consent token, the client's redirect/state to echo back, the
broker's own upstream CSRF `state`, the consent flag of §4.7 step 3, and
TTL bounds. -/
structure AuthorizationTransaction where
  transactionId : String
  codeVerifier : String
  codeChallenge : String
  consentToken : String
  clientRedirectUri : String
  clientState : String
  requestedScopes : List String
  state : String
  consentGranted : Bool
  createdAt : Nat
  expiresAt : Nat
deriving DecidableEq, Repr

/-- The keyed transaction store (spec §4.2). -/
abbrev TransactionStore := List (String × AuthorizationTransaction)

/-- Modelled from the spec: `get(transactionId)` on the keyed store;
expiry is checked by the callers at use time. -/
def getTx (store : TransactionStore) (id : String) : Option AuthorizationTransaction :=
  (store.find? (fun p => p.1 == id)).map Prod.snd

/-- Remove a transaction id from the store. -/
def eraseTx (store : TransactionStore) (id : String) : TransactionStore :=
  store.filter (fun p => !(p.1 == id))

/-- Replace the stored transaction under a given id. -/
def setTx (store : TransactionStore) (id : String) (tx : AuthorizationTransaction) :
    TransactionStore :=
  (id, tx) :: eraseTx store id

/-- Modelled from the spec: `consume(transactionId)` (§4.2) — atomically
retrieve and delete; an absent id is `TransactionNotFound` and an expired
one is `TransactionExpired` (both of which the Broker State Machine must
treat as a hard-fail, §7). -/
def consumeTx (store : TransactionStore) (id : String) (now : Nat) :
    Except AuthError AuthorizationTransaction × TransactionStore :=
  match getTx store id with
  | none => (.error .transactionNotFound, store)
  | some tx =>
    if tx.expiresAt ≤ now then (.error .transactionExpired, eraseTx store id)
    else (.ok tx, eraseTx store id)

/-- Modelled from the spec: `confirmConsent(transactionId, consentToken)`
(§4.5) — validates that the submitted token matches the one minted for that
transaction and that the transaction is unexpired and not already
consent-granted; on success flips the stored consent flag (a state
transition, not a deletion). -/
def confirmConsent (store : TransactionStore) (id : String) (token : String)
    (now : Nat) : Except AuthError Unit × TransactionStore :=
  match getTx store id with
  | none => (.error .transactionNotFound, store)
  | some tx =>
    if tx.expiresAt ≤ now then (.error .transactionExpired, store)
    else if tx.consentGranted then (.error .consentTokenInvalid, store)
    else if !(token == tx.consentToken) then (.error .consentTokenInvalid, store)
    else (.ok (), setTx store id { tx with consentGranted := true })

/-- Modelled from the spec: the callback step of the Broker State Machine
(§4.7 steps 4-5) — `consume` the transaction, reject outright on a state
mismatch (CSRF defense) or a transaction not in `CONSENT_GRANTED`, then
exchange code+verifier upstream, validate claims, and build session props
(requiring a non-empty `sub`, §4.6).  The upstream exchange and the claims
validator are parameters, since they are network collaborators. -/
def brokerCallback (store : TransactionStore) (id code state : String) (now : Nat)
    (exchange : String → String → Except AuthError TokenSet)
    (validate : String → Except AuthError Claims) :
    Except AuthError UserProps × TransactionStore :=
  match consumeTx store id now with
  | (.error e, store2) => (.error e, store2)
  | (.ok tx, store2) =>
    if !(state == tx.state) then (.error .stateMismatch, store2)
    else if !tx.consentGranted then (.error .consentTokenInvalid, store2)
    else
      match exchange code tx.codeVerifier with
      | .error _ => (.error .upstreamExchangeFailed, store2)
      | .ok tokens =>
        match validate tokens.idToken with
        | .error _ => (.error .claimsInvalid, store2)
        | .ok claims =>
          match claims.sub with
          | none => (.error .missingSubjectClaim, store2)
          | some s =>
            if s = "" then (.error .missingSubjectClaim, store2)
            else (.ok { claims := claims, tokenSet := tokens }, store2)

/-! ## Theorems

First, sanity test vectors for the executable embedding (FIPS 180 / RFC
7636 appendix B), then the claim theorems C1-C10 with their supporting
lemmas, counterexamples and witnesses. -/

example : sha256 (utf8Encode "abc") =
    [0xba, 0x78, 0x16, 0xbf, 0x8f, 0x01, 0xcf, 0xea, 0x41, 0x41, 0x40, 0xde,
     0x5d, 0xae, 0x22, 0x23, 0xb0, 0x03, 0x61, 0xa3, 0x96, 0x17, 0x7a, 0x9c,
     0xb4, 0x10, 0xff, 0x61, 0xf2, 0x00, 0x15, 0xad] := by decide

example : challengeFor "dBjftJeZ4CVP-mB92K27uhbUJU1p1r_wW1gFWFOEjXk" =
    "E9Melhoa2OwvFrEMTJguCHaoeK1t8URWbuGJSstw-cM" := by decide

/-- C6: for every `(codeVerifier, codeChallenge)` pair generated together by
the PKCE generator, applying the challenge derivation (SHA-256 of the
verifier, then base64url encoding without padding) to the stored
`codeVerifier` yields exactly the stored `codeChallenge`. -/
theorem pkce_challenge_roundtrip (verifier : String) :
    challengeFor (generatePkcePair verifier).codeVerifier =
      (generatePkcePair verifier).codeChallenge ∧
    (generatePkcePair verifier).codeChallenge =
      base64urlNoPad (sha256 (utf8Encode (generatePkcePair verifier).codeVerifier)) :=
  ⟨rfl, rfl⟩

/-- C1 (code bug): evaluating the logout handler at a concrete
authenticated session shows it performs no invalidation — the `logout` call
reports success, the token store is returned unchanged, and a subsequent
`currentUser` lookup under the same broker-issued token still returns the
old `SessionProps` instead of `Unauthenticated`. -/
theorem logout_leaves_token_usable :
    logoutStep
        [("broker-token-1",
          { claims := { sub := some "auth0|user123" },
            tokenSet := { accessToken := "at", accessTokenTTL := some 900,
                          idToken := "idt", refreshToken := "rt" } })]
        "broker-token-1" =
      (ToolResponse.ok
        { success := true,
          message := "Successfully logged out. You will need to re-authenticate for the next request.",
          logged_out_user := "auth0|user123" },
        [("broker-token-1",
          { claims := { sub := some "auth0|user123" },
            tokenSet := { accessToken := "at", accessTokenTTL := some 900,
                          idToken := "idt", refreshToken := "rt" } })]) ∧
    currentUser
        [("broker-token-1",
          { claims := { sub := some "auth0|user123" },
            tokenSet := { accessToken := "at", accessTokenTTL := some 900,
                          idToken := "idt", refreshToken := "rt" } })]
        "broker-token-1" =
      some { claims := { sub := some "auth0|user123" },
             tokenSet := { accessToken := "at", accessTokenTTL := some 900,
                           idToken := "idt", refreshToken := "rt" } } := by
  constructor
  · rfl
  · rfl

/-- C8 (code bug): the catch branch of the tool handlers echoes the thrown
exception's message verbatim to the client
(`message: error instanceof Error ? error.message : ...`), rather than the
generic non-leaking surface SECURITY.md and the spec require. -/
theorem catch_branch_echoes_exception_message :
    runCreateSpecification
        (Except.error (JSThrown.errObj "D1_ERROR: no such table: specifications")) =
      ToolResponse.dbError "Database error" "D1_ERROR: no such table: specifications" ∧
    runListSpecifications
        (Except.error (JSThrown.errObj "SQLITE_CONSTRAINT: NOT NULL constraint failed: specifications.title")) =
      ToolResponse.dbError "Database error"
        "SQLITE_CONSTRAINT: NOT NULL constraint failed: specifications.title" ∧
    runCreateSpecification (Except.error JSThrown.nonError) =
      ToolResponse.dbError "Database error" "Failed to create specification" :=
  ⟨rfl, rfl, rfl⟩

/-- C3: every one of the nine exposed tools checks
`this.props?.claims?.sub` first; an unauthenticated caller gets the tool's
authentication-required error, the database (resp. token store) passes
through unchanged, and the response does not depend on the stored data at
all. -/
theorem unauthenticated_tools_fail_closed (props : Option UserProps)
    (h : authSub props = none) :
    (∀ db title content version tags description now,
      create_specification props db title content version tags description now =
        (.authRequired "Authentication required"
          "User must be authenticated to create specifications" none, db)) ∧
    (∀ db limit offset,
      list_specifications props db limit offset =
        (.authRequired "Authentication required"
          "User must be authenticated to list specifications"
          (some (props.isSome, props.isSome, false)), db)) ∧
    (∀ db id,
      get_specification props db id =
        (.authRequired "Authentication required"
          "User must be authenticated to get specifications" none, db)) ∧
    (∀ db id title content version tags now,
      update_specification props db id title content version tags now =
        (.authRequired "Authentication required"
          "User must be authenticated to update specifications" none, db)) ∧
    (∀ db id,
      delete_specification props db id =
        (.authRequired "Authentication required"
          "User must be authenticated to delete specifications" none, db)) ∧
    (∀ db query limit,
      search_specifications props db query limit =
        (.authRequired "Authentication required"
          "User must be authenticated to search specifications" none, db)) ∧
    (∀ db id1 id2,
      compare_specifications props db id1 id2 =
        (.authRequired "Authentication required"
          "User must be authenticated to compare specifications" none, db)) ∧
    (∀ db month,
      monthly_specification_report props db month =
        (.authRequired "Authentication required"
          "User must be authenticated to generate reports" none, db)) ∧
    (∀ store, logoutHandler props store =
        (.authRequired "Not authenticated" "User is not currently authenticated" none, store)) := by
  refine ⟨?_, ?_, ?_, ?_, ?_, ?_, ?_, ?_, ?_⟩ <;> intros <;>
    simp only [create_specification, list_specifications, get_specification,
      update_specification, delete_specification, search_specifications,
      compare_specifications, monthly_specification_report, logoutHandler, h]

/-- Witness for C3: a session whose claims carry an empty `sub` is rejected
by `create_specification` without touching the database. -/
theorem unauthenticated_tools_fail_closed_witness :
    create_specification
        (some { claims := { sub := some "" },
                tokenSet := { accessToken := "at", accessTokenTTL := none,
                              idToken := "idt", refreshToken := "rt" } })
        { rows := [], seq := 0 } "T" "C" "1.0.0" [] none "2025-01-01 00:00:00" =
      (.authRequired "Authentication required"
        "User must be authenticated to create specifications" none,
        { rows := [], seq := 0 }) :=
  (unauthenticated_tools_fail_closed
      (some { claims := { sub := some "" },
              tokenSet := { accessToken := "at", accessTokenTTL := none,
                            idToken := "idt", refreshToken := "rt" } })
      rfl).1
    { rows := [], seq := 0 } "T" "C" "1.0.0" [] none "2025-01-01 00:00:00"

/-- C10: `update_specification` treats an empty-string title/content/version
and an empty tags array exactly like absent fields, and when no updatable
field remains it answers "No updates provided" and leaves the database
untouched. -/
theorem update_specification_empty_fields_are_absent :
    (∀ props db id content version tags now,
      update_specification props db id (some "") content version tags now =
        update_specification props db id none content version tags now) ∧
    (∀ props db id title version tags now,
      update_specification props db id title (some "") version tags now =
        update_specification props db id title none version tags now) ∧
    (∀ props db id title content tags now,
      update_specification props db id title content (some "") tags now =
        update_specification props db id title content none tags now) ∧
    (∀ props db id title content version now,
      update_specification props db id title content version (some []) now =
        update_specification props db id title content version none now) ∧
    (∀ props sub db id title content version tags now,
      authSub props = some sub →
      (title = none ∨ title = some "") →
      (content = none ∨ content = some "") →
      (version = none ∨ version = some "") →
      (tags = none ∨ tags = some []) →
      update_specification props db id title content version tags now =
        (.failure "No updates provided"
          "At least one field to update must be provided" none, db)) := by
  have happly1 : ∀ content version tags now,
      applyUpdate (some "") content version tags now = applyUpdate none content version tags now := by
    intro content version tags now
    funext r
    simp [applyUpdate]
  have happly2 : ∀ title version tags now,
      applyUpdate title (some "") version tags now = applyUpdate title none version tags now := by
    intro title version tags now
    funext r
    simp [applyUpdate]
  have happly3 : ∀ title content tags now,
      applyUpdate title content (some "") tags now = applyUpdate title content none tags now := by
    intro title content tags now
    funext r
    simp [applyUpdate]
  have happly4 : ∀ title content version now,
      applyUpdate title content version (some []) now = applyUpdate title content version none now := by
    intro title content version now
    funext r
    simp [applyUpdate]
  refine ⟨?_, ?_, ?_, ?_, ?_⟩
  · intro props db id content version tags now
    simp [update_specification, truthyStr, happly1]
  · intro props db id title version tags now
    simp [update_specification, truthyStr, happly2]
  · intro props db id title content tags now
    simp [update_specification, truthyStr, happly3]
  · intro props db id title content version now
    simp [update_specification, truthyTags, happly4]
  · intro props sub db id title content version tags now hauth ht hc hv htg
    have h1 : truthyStr title = false := by rcases ht with rfl | rfl <;> simp [truthyStr]
    have h2 : truthyStr content = false := by rcases hc with rfl | rfl <;> simp [truthyStr]
    have h3 : truthyStr version = false := by rcases hv with rfl | rfl <;> simp [truthyStr]
    have h4 : truthyTags tags = false := by rcases htg with rfl | rfl <;> simp [truthyTags]
    simp [update_specification, hauth, h1, h2, h3, h4]

/-- Witness for C10: an authenticated update carrying only empty values is
answered with the "No updates provided" error and changes nothing. -/
theorem update_specification_empty_fields_are_absent_witness :
    update_specification
        (some { claims := { sub := some "auth0|u1" },
                tokenSet := { accessToken := "at", accessTokenTTL := none,
                              idToken := "idt", refreshToken := "rt" } })
        { rows := [{ id := 1, title := "T", content := "C", version := "1.0.0",
                     description := none, tags := "[]", user_id := "auth0|u1",
                     created_at := "2025-01-01 00:00:00",
                     updated_at := "2025-01-01 00:00:00" }], seq := 1 }
        1 (some "") (some "") none (some []) "2025-02-01 00:00:00" =
      (.failure "No updates provided"
        "At least one field to update must be provided" none,
        { rows := [{ id := 1, title := "T", content := "C", version := "1.0.0",
                     description := none, tags := "[]", user_id := "auth0|u1",
                     created_at := "2025-01-01 00:00:00",
                     updated_at := "2025-01-01 00:00:00" }], seq := 1 }) :=
  update_specification_empty_fields_are_absent.2.2.2.2
    (some { claims := { sub := some "auth0|u1" },
            tokenSet := { accessToken := "at", accessTokenTTL := none,
                          idToken := "idt", refreshToken := "rt" } })
    "auth0|u1" _ 1 (some "") (some "") none (some []) "2025-02-01 00:00:00"
    rfl (Or.inr rfl) (Or.inr rfl) (Or.inl rfl) (Or.inr rfl)

/-- C9 counterexample: `extractMCPParams` does not always return a plain
object — a nested `params` value is returned as-is, so an array (and, via
the `method`+`params` branch, even a bare string) comes back unchanged. -/
theorem extractMCPParams_not_always_plain_object :
    extractMCPParams (.jobj [("params", .jarr [.jstr "x"])]) = .jarr [.jstr "x"] ∧
    JSValue.isPlainObject (.jarr [.jstr "x"]) = false ∧
    extractMCPParams (.jobj [("method", .jstr "m"), ("params", .jstr "raw")]) = .jstr "raw" ∧
    JSValue.isPlainObject (.jstr "raw") = false := by
  refine ⟨?_, rfl, ?_, rfl⟩
  · simp [extractMCPParams, extractFromObject, metadataOnly, metadataKeys, objGet,
      JSValue.truthy, JSValue.typeofIsObject]
  · simp [extractMCPParams, extractFromObject, metadataOnly, metadataKeys, objGet,
      JSValue.truthy, JSValue.typeofIsObject]

/-- C9 (amended): a complete case description of `extractMCPParams`.  Falsy
inputs and truthy non-object non-string inputs (including arrays) give the
empty object; a non-empty all-metadata object gives the empty object; a
truthy object-typed `params` (resp. `arguments`) value, or any truthy
`params` alongside a truthy `method`, is returned as-is (hence not
necessarily a plain object); a string is JSON-parsed and recursed into,
with parse failure giving the empty object; otherwise the object is
returned with the four metadata keys filtered out, so they never appear in
the result. -/
theorem extractMCPParams_cases :
    (extractMCPParams .jundefined = .jobj [] ∧ extractMCPParams .jnull = .jobj []) ∧
    (∀ b, extractMCPParams (.jbool b) = .jobj []) ∧
    (∀ q, extractMCPParams (.jnum q) = .jobj []) ∧
    (∀ elems, extractMCPParams (.jarr elems) = .jobj []) ∧
    (∀ fields, metadataOnly fields = true → extractMCPParams (.jobj fields) = .jobj []) ∧
    (∀ fields, metadataOnly fields = false →
      ((objGet fields "params").truthy && (objGet fields "params").typeofIsObject) = true →
      extractMCPParams (.jobj fields) = objGet fields "params") ∧
    (∀ fields, metadataOnly fields = false →
      ((objGet fields "params").truthy && (objGet fields "params").typeofIsObject) = false →
      ((objGet fields "arguments").truthy && (objGet fields "arguments").typeofIsObject) = true →
      extractMCPParams (.jobj fields) = objGet fields "arguments") ∧
    (∀ fields, metadataOnly fields = false →
      ((objGet fields "params").truthy && (objGet fields "params").typeofIsObject) = false →
      ((objGet fields "arguments").truthy && (objGet fields "arguments").typeofIsObject) = false →
      ((objGet fields "method").truthy && (objGet fields "params").truthy) = true →
      extractMCPParams (.jobj fields) = objGet fields "params") ∧
    (∀ s, extractMCPParams (.jstr s) =
      (match jsonParse s with
       | some parsed => extractMCPParams parsed
       | none => .jobj [])) ∧
    (∀ fields, metadataOnly fields = false →
      ((objGet fields "params").truthy && (objGet fields "params").typeofIsObject) = false →
      ((objGet fields "arguments").truthy && (objGet fields "arguments").typeofIsObject) = false →
      ((objGet fields "method").truthy && (objGet fields "params").truthy) = false →
      extractMCPParams (.jobj fields) =
        .jobj (fields.filter (fun kv => !(metadataKeys.contains kv.1))) ∧
      ∀ k, metadataKeys.contains k = true →
        objGet (fields.filter (fun kv => !(metadataKeys.contains kv.1))) k = .jundefined) := by
  refine ⟨⟨by simp [extractMCPParams], by simp [extractMCPParams]⟩,
    fun b => by simp [extractMCPParams], fun q => by simp [extractMCPParams],
    fun elems => by simp [extractMCPParams], ?_, ?_, ?_, ?_, ?_, ?_⟩
  · intro fields hmeta
    simp [extractMCPParams, extractFromObject, hmeta]
  · intro fields hmeta hsel
    simp [extractMCPParams, extractFromObject, hmeta, hsel]
  · intro fields hmeta hp ha
    simp [extractMCPParams, extractFromObject, hmeta, hp, ha]
  · intro fields hmeta hp ha hm
    simp [extractMCPParams, extractFromObject, hmeta, hp, ha, hm]
  · intro s
    by_cases hs : s = ""
    · subst hs
      have hnone : jsonParse "" = none := rfl
      simp [extractMCPParams, hnone]
    · simp only [extractMCPParams, if_neg hs]
      split
      · rename_i parsed hjp
        rw [hjp]
      · rename_i hjp
        rw [hjp]
  · intro fields hmeta hp ha hm
    constructor
    · simp [extractMCPParams, extractFromObject, hmeta, hp, ha, hm]
    · intro k hk
      have hnone : (fields.filter (fun kv => !(metadataKeys.contains kv.1))).find?
          (fun kv => kv.1 == k) = none := by
        apply List.find?_eq_none.mpr
        intro kv hkv
        have h2 := (List.mem_filter.mp hkv).2
        intro hbeq
        have : kv.1 = k := by simpa using hbeq
        rw [this] at h2
        rw [hk] at h2
        simp at h2
      unfold objGet
      rw [hnone]

/-- Witness for C9: a metadata-only object (the empty-parameters situation
the source logs about) collapses to the empty object. -/
theorem extractMCPParams_cases_witness :
    metadataOnly [("signal", JSValue.jnull), ("_meta", JSValue.jstr "x")] = true ∧
    extractMCPParams (.jobj [("signal", JSValue.jnull), ("_meta", JSValue.jstr "x")]) =
      .jobj [] :=
  ⟨rfl, extractMCPParams_cases.2.2.2.2.1 [("signal", JSValue.jnull), ("_meta", JSValue.jstr "x")] rfl⟩

theorem filter_map_ite_comm (rows : List SpecRow) (p c : SpecRow → Bool)
    (g : SpecRow → SpecRow) (hg : ∀ r, p (g r) = p r) :
    (rows.map (fun r => if c r then g r else r)).filter p =
      (rows.filter p).map (fun r => if c r then g r else r) := by
  induction rows with
  | nil => simp
  | cons r rest ih =>
    simp only [List.map_cons, List.filter_cons]
    by_cases hc : c r = true
    · by_cases hp : p r = true
      · simp [hc, hp, hg r, ih]
      · simp only [Bool.not_eq_true] at hp
        simp [hc, hp, hg r, ih]
    · simp only [Bool.not_eq_true] at hc
      by_cases hp : p r = true
      · simp [hc, hp, ih]
      · simp only [Bool.not_eq_true] at hp
        simp [hc, hp, ih]

theorem map_ite_id_of_not (rows : List SpecRow) (c : SpecRow → Bool)
    (g : SpecRow → SpecRow) (h : ∀ r ∈ rows, c r = false) :
    rows.map (fun r => if c r then g r else r) = rows := by
  induction rows with
  | nil => simp
  | cons r rest ih =>
    simp only [List.map_cons]
    rw [h r (by simp)]
    simp only [Bool.false_eq_true, if_false]
    rw [ih (fun r2 hr2 => h r2 (by simp [hr2]))]

/-- C2 counterexample: the id returned by `create_specification` comes from
the table-global `AUTOINCREMENT` sequence, so user A's result differs
between two databases whose A-rows are identical and which differ only in
user B's stored specifications. -/
theorem create_id_depends_on_other_users_rows :
    rowsOf "auth0|userA" { rows := [], seq := 0 } =
      rowsOf "auth0|userA"
        { rows := [{ id := 1, title := "B spec", content := "c", version := "1.0.0",
                     description := none, tags := "[]", user_id := "auth0|userB",
                     created_at := "2025-01-01 00:00:00",
                     updated_at := "2025-01-01 00:00:00" }], seq := 1 } ∧
    (create_specification
        (some { claims := { sub := some "auth0|userA" },
                tokenSet := { accessToken := "at", accessTokenTTL := none,
                              idToken := "idt", refreshToken := "rt" } })
        { rows := [], seq := 0 } "T" "C" "1.0.0" [] none "2025-02-01 00:00:00").1 =
      .ok { success := true, id := 1 } ∧
    (create_specification
        (some { claims := { sub := some "auth0|userA" },
                tokenSet := { accessToken := "at", accessTokenTTL := none,
                              idToken := "idt", refreshToken := "rt" } })
        { rows := [{ id := 1, title := "B spec", content := "c", version := "1.0.0",
                     description := none, tags := "[]", user_id := "auth0|userB",
                     created_at := "2025-01-01 00:00:00",
                     updated_at := "2025-01-01 00:00:00" }], seq := 1 }
        "T" "C" "1.0.0" [] none "2025-02-01 00:00:00").1 =
      .ok { success := true, id := 2 } ∧
    (ToolResponse.ok { success := true, id := 1 } : ToolResponse CreatePayload) ≠
      .ok { success := true, id := 2 } := by
  refine ⟨rfl, rfl, rfl, by decide⟩

/-- C2 (amended): every tool query carries `WHERE user_id = claims.sub`, so
an authenticated caller reads and writes only their own rows: the read
tools answer as a function of the caller's rows alone and leave the
database unchanged; update and delete answer and act on the caller's rows
as a function of those rows and leave everyone else's rows untouched;
create inserts exactly one row owned by the caller and leaves everyone
else's rows untouched — but the id it allocates (and returns) comes from
the table-global `AUTOINCREMENT` sequence, which is the one result
component that can depend on other users' inserts. -/
theorem tools_user_data_isolation (A : String) (props : Option UserProps)
    (hauth : authSub props = some A) :
    (∀ db1 db2 limit offset, rowsOf A db1 = rowsOf A db2 →
      (list_specifications props db1 limit offset).1 =
        (list_specifications props db2 limit offset).1) ∧
    (∀ db limit offset, (list_specifications props db limit offset).2 = db) ∧
    (∀ db1 db2 id, rowsOf A db1 = rowsOf A db2 →
      (get_specification props db1 id).1 = (get_specification props db2 id).1) ∧
    (∀ db id, (get_specification props db id).2 = db) ∧
    (∀ db1 db2 query limit, rowsOf A db1 = rowsOf A db2 →
      (search_specifications props db1 query limit).1 =
        (search_specifications props db2 query limit).1) ∧
    (∀ db query limit, (search_specifications props db query limit).2 = db) ∧
    (∀ db1 db2 id1 id2, rowsOf A db1 = rowsOf A db2 →
      (compare_specifications props db1 id1 id2).1 =
        (compare_specifications props db2 id1 id2).1) ∧
    (∀ db id1 id2, (compare_specifications props db id1 id2).2 = db) ∧
    (∀ db1 db2 month, rowsOf A db1 = rowsOf A db2 →
      (monthly_specification_report props db1 month).1 =
        (monthly_specification_report props db2 month).1) ∧
    (∀ db month, (monthly_specification_report props db month).2 = db) ∧
    (∀ db1 db2 id title content version tags now, rowsOf A db1 = rowsOf A db2 →
      (update_specification props db1 id title content version tags now).1 =
        (update_specification props db2 id title content version tags now).1 ∧
      rowsOf A (update_specification props db1 id title content version tags now).2 =
        rowsOf A (update_specification props db2 id title content version tags now).2) ∧
    (∀ db id title content version tags now,
      rowsNotOf A (update_specification props db id title content version tags now).2 =
        rowsNotOf A db) ∧
    (∀ db1 db2 id, rowsOf A db1 = rowsOf A db2 →
      (delete_specification props db1 id).1 = (delete_specification props db2 id).1 ∧
      rowsOf A (delete_specification props db1 id).2 =
        rowsOf A (delete_specification props db2 id).2) ∧
    (∀ db id, rowsNotOf A (delete_specification props db id).2 = rowsNotOf A db) ∧
    (∀ db title content version tags description now,
      rowsNotOf A
          (create_specification props db title content version tags description now).2 =
        rowsNotOf A db ∧
      rowsOf A (create_specification props db title content version tags description now).2 =
        rowsOf A db ++
          [{ id := db.seq + 1, title := title, content := content, version := version,
             description := description, tags := jsonStringifyStrings tags, user_id := A,
             created_at := now, updated_at := now }]) := by
  refine ⟨?_, ?_, ?_, ?_, ?_, ?_, ?_, ?_, ?_, ?_, ?_, ?_, ?_, ?_, ?_⟩
  · intro db1 db2 limit offset h12
    simp only [list_specifications, hauth]
    rw [h12]
  · intro db limit offset
    simp [list_specifications, hauth]
  · intro db1 db2 id h12
    simp only [get_specification, hauth]
    rw [h12]
    cases List.find? (fun r => r.id == id) (rowsOf A db2) <;> rfl
  · intro db id
    simp only [get_specification, hauth]
    split <;> rfl
  · intro db1 db2 query limit h12
    simp only [search_specifications, hauth]
    rw [h12]
  · intro db query limit
    simp [search_specifications, hauth]
  · intro db1 db2 id1 id2 h12
    simp only [compare_specifications, hauth]
    rw [h12]
    cases List.find? (fun r => r.id == id1) (rowsOf A db2) <;>
      cases List.find? (fun r => r.id == id2) (rowsOf A db2) <;> rfl
  · intro db id1 id2
    simp only [compare_specifications, hauth]
    split <;> rfl
  · intro db1 db2 month h12
    simp only [monthly_specification_report, hauth]
    rw [h12]
  · intro db month
    simp [monthly_specification_report, hauth]
  · intro db1 db2 id title content version tags now h12
    constructor
    · simp only [update_specification, hauth]
      rw [h12]
      split <;> rfl
    · simp only [update_specification, hauth]
      split <;> rename_i hcond
      · exact h12
      · simp only [rowsOf]
        rw [filter_map_ite_comm _ _ _ _ (fun r => by simp [applyUpdate]),
            filter_map_ite_comm _ _ _ _ (fun r => by simp [applyUpdate])]
        show ((rowsOf A db1).map _) = ((rowsOf A db2).map _)
        rw [h12]
  · intro db id title content version tags now
    simp only [update_specification, hauth]
    split
    · rfl
    · simp only [rowsNotOf]
      rw [filter_map_ite_comm _ _ _ _ (fun r => by simp [applyUpdate])]
      show ((rowsNotOf A db).map _) = rowsNotOf A db
      apply map_ite_id_of_not
      intro r hr
      have := (List.mem_filter.mp hr).2
      simp only [Bool.not_eq_true'] at this
      simp [this]
  · intro db1 db2 id h12
    constructor
    · simp only [delete_specification, hauth]
      rw [h12]
    · have key : ∀ dbx : Database,
          List.filter (fun r => r.user_id == A)
              (List.filter (fun r => !(r.id == id && r.user_id == A)) dbx.rows) =
            List.filter (fun r => !(r.id == id && r.user_id == A)) (rowsOf A dbx) := by
        intro dbx
        rw [List.filter_filter, rowsOf, List.filter_filter]
        exact List.filter_congr (fun r _ => Bool.and_comm _ _)
      simp only [delete_specification, hauth, rowsOf] at key ⊢
      simp only [rowsOf] at h12
      rw [key db1, key db2, h12]
  · intro db id
    simp only [delete_specification, hauth, rowsNotOf]
    rw [List.filter_filter]
    apply List.filter_congr
    intro r _
    cases h : r.user_id == A <;> simp [h]
  · intro db title content version tags description now
    constructor
    · simp only [create_specification, hauth, rowsNotOf]
      simp [List.filter_append]
    · simp only [create_specification, hauth, rowsOf]
      simp [List.filter_append]

/-- Witness for C2: user A's listing is untouched by the presence of a
row belonging to user B. -/
theorem tools_user_data_isolation_witness :
    (list_specifications
        (some { claims := { sub := some "auth0|userA" },
                tokenSet := { accessToken := "at", accessTokenTTL := none,
                              idToken := "idt", refreshToken := "rt" } })
        { rows := [{ id := 3, title := "A spec", content := "c", version := "1.0.0",
                     description := none, tags := "[]", user_id := "auth0|userA",
                     created_at := "2025-01-01 00:00:00",
                     updated_at := "2025-01-01 00:00:00" }], seq := 5 } 10 0).1 =
      (list_specifications
        (some { claims := { sub := some "auth0|userA" },
                tokenSet := { accessToken := "at", accessTokenTTL := none,
                              idToken := "idt", refreshToken := "rt" } })
        { rows := [{ id := 9, title := "B spec", content := "x", version := "2.0.0",
                     description := some "d", tags := "[]", user_id := "auth0|userB",
                     created_at := "2025-03-01 00:00:00",
                     updated_at := "2025-03-01 00:00:00" },
                   { id := 3, title := "A spec", content := "c", version := "1.0.0",
                     description := none, tags := "[]", user_id := "auth0|userA",
                     created_at := "2025-01-01 00:00:00",
                     updated_at := "2025-01-01 00:00:00" }], seq := 9 } 10 0).1 :=
  (tools_user_data_isolation "auth0|userA"
      (some { claims := { sub := some "auth0|userA" },
              tokenSet := { accessToken := "at", accessTokenTTL := none,
                            idToken := "idt", refreshToken := "rt" } })
      rfl).1 _ _ 10 0 rfl

theorem getTx_eraseTx (store : TransactionStore) (id : String) :
    getTx (eraseTx store id) id = none := by
  have hnone : (eraseTx store id).find? (fun p => p.1 == id) = none := by
    apply List.find?_eq_none.mpr
    intro p hp
    have h2 := (List.mem_filter.mp hp).2
    simp only [Bool.not_eq_eq_eq_not, Bool.not_true] at h2
    simp [h2]
  simp [getTx, hnone]

theorem getTx_setTx (store : TransactionStore) (id : String)
    (tx : AuthorizationTransaction) : getTx (setTx store id tx) id = some tx := by
  simp [getTx, setTx, List.find?]

/-- C4: a transaction is consumed exactly once.  A successful `consume`
removes the id, so any later `consume` (at any time) fails with
`TransactionNotFound` and leaves the store as it was; a `consume` of an
expired transaction fails with `TransactionExpired`, removes the id, and
every later `consume` fails with `TransactionNotFound`; consequently a
callback that already succeeded for an id makes every repeated callback for
that id (any code/state/time) fail with `TransactionNotFound` — the
transaction is never resurrected. -/
theorem transaction_consumed_exactly_once :
    (∀ store id now tx store2, consumeTx store id now = (.ok tx, store2) →
      ∀ now2, consumeTx store2 id now2 = (.error .transactionNotFound, store2)) ∧
    (∀ store id now tx, getTx store id = some tx → tx.expiresAt ≤ now →
      consumeTx store id now = (.error .transactionExpired, eraseTx store id) ∧
      ∀ now2, consumeTx (eraseTx store id) id now2 =
        (.error .transactionNotFound, eraseTx store id)) ∧
    (∀ store id code state now ex val props store2,
      brokerCallback store id code state now ex val = (.ok props, store2) →
      ∀ now2 code2 state2 ex2 val2,
        brokerCallback store2 id code2 state2 now2 ex2 val2 =
          (.error .transactionNotFound, store2)) := by
  have hconsume_ok : ∀ store id now tx store2,
      consumeTx store id now = (Except.ok tx, store2) → store2 = eraseTx store id := by
    intro store id now tx store2 h
    unfold consumeTx at h
    split at h
    · cases h
    · split at h
      · cases h
      · injection h with h1 h2
        exact h2.symm
  have hnotfound : ∀ store id now2, getTx store id = none →
      consumeTx store id now2 = (.error .transactionNotFound, store) := by
    intro store id now2 hget
    unfold consumeTx
    rw [hget]
  refine ⟨?_, ?_, ?_⟩
  · intro store id now tx store2 h now2
    have h2 := hconsume_ok store id now tx store2 h
    subst h2
    exact hnotfound _ _ _ (getTx_eraseTx store id)
  · intro store id now tx hget hexp
    constructor
    · simp only [consumeTx, hget]
      rw [if_pos hexp]
    · intro now2
      exact hnotfound _ _ _ (getTx_eraseTx store id)
  · intro store id code state now ex val props store2 h now2 code2 state2 ex2 val2
    have hstore2 : store2 = eraseTx store id := by
      unfold brokerCallback at h
      split at h
      · cases h
      · rename_i tx store3 hcons
        have h3 := hconsume_ok store id now tx store3 hcons
        subst h3
        split at h
        · cases h
        · split at h
          · cases h
          · split at h
            · cases h
            · split at h
              · cases h
              · split at h
                · cases h
                · split at h
                  · cases h
                  · injection h with h1 h2
                    exact h2.symm
    subst hstore2
    unfold brokerCallback
    rw [hnotfound _ _ _ (getTx_eraseTx store id)]

/-- Witness for C4: consuming a live transaction succeeds once and empties
the store; consuming the same id again fails with `TransactionNotFound`. -/
theorem transaction_consumed_exactly_once_witness :
    consumeTx
        [("tx-1",
          { transactionId := "tx-1", codeVerifier := "v", codeChallenge := "ch",
            consentToken := "ct", clientRedirectUri := "https://client.example/cb",
            clientState := "cs", requestedScopes := ["openid"], state := "st",
            consentGranted := true, createdAt := 0, expiresAt := 600 })]
        "tx-1" 10 =
      (Except.ok
        { transactionId := "tx-1", codeVerifier := "v", codeChallenge := "ch",
          consentToken := "ct", clientRedirectUri := "https://client.example/cb",
          clientState := "cs", requestedScopes := ["openid"], state := "st",
          consentGranted := true, createdAt := 0, expiresAt := 600 }, []) ∧
    consumeTx [] "tx-1" 800 = (.error .transactionNotFound, []) :=
  ⟨rfl,
    (transaction_consumed_exactly_once.1
      [("tx-1",
        { transactionId := "tx-1", codeVerifier := "v", codeChallenge := "ch",
          consentToken := "ct", clientRedirectUri := "https://client.example/cb",
          clientState := "cs", requestedScopes := ["openid"], state := "st",
          consentGranted := true, createdAt := 0, expiresAt := 600 })]
      "tx-1" 10 _ [] rfl) 800⟩

/-- C5: a callback whose `state` is not byte-for-byte the transaction's
stored state fails with `StateMismatch` and issues no token, whatever the
upstream exchange function would have answered for the presented code. -/
theorem callback_state_mismatch_rejected (store : TransactionStore)
    (id code state : String) (now : Nat) (tx : AuthorizationTransaction)
    (ex : String → String → Except AuthError TokenSet)
    (val : String → Except AuthError Claims)
    (hget : getTx store id = some tx) (hlive : now < tx.expiresAt)
    (hne : state ≠ tx.state) :
    brokerCallback store id code state now ex val =
      (.error .stateMismatch, eraseTx store id) := by
  have hcons : consumeTx store id now = (.ok tx, eraseTx store id) := by
    simp only [consumeTx, hget]
    rw [if_neg (by omega)]
  unfold brokerCallback
  simp [hcons, hne]

/-- Witness for C5: a live, consent-granted transaction with stored state
`"expected-state"` rejects a callback presenting `"forged-state"` even
though the exchange function would accept the code. -/
theorem callback_state_mismatch_rejected_witness :
    brokerCallback
        [("tx-9",
          { transactionId := "tx-9", codeVerifier := "v9", codeChallenge := "ch9",
            consentToken := "ct9", clientRedirectUri := "https://client.example/cb",
            clientState := "cs9", requestedScopes := ["openid"],
            state := "expected-state", consentGranted := true, createdAt := 0,
            expiresAt := 600 })]
        "tx-9" "valid-upstream-code" "forged-state" 10
        (fun _ _ => .ok { accessToken := "at", accessTokenTTL := some 900,
                          idToken := "idt", refreshToken := "rt" })
        (fun _ => .ok { sub := some "auth0|user123" }) =
      (.error .stateMismatch, []) :=
  callback_state_mismatch_rejected _ "tx-9" "valid-upstream-code" "forged-state" 10 _ _ _
    rfl (by decide) (by decide)

/-- C7: consent tokens are single-use and transaction-bound — the first
confirmation with the matching, unexpired token succeeds and flips the
stored consent flag; a second confirmation with the same token fails
(`TransactionExpired` if the TTL has passed, otherwise
`ConsentTokenInvalid`); and a confirmation presenting a token other than
the one minted for that transaction fails. -/
theorem consent_token_single_use :
    (∀ store id tx token now, getTx store id = some tx → now < tx.expiresAt →
      tx.consentGranted = false → token = tx.consentToken →
      confirmConsent store id token now =
        (.ok (), setTx store id { tx with consentGranted := true })) ∧
    (∀ store id tx token now now2, getTx store id = some tx → now < tx.expiresAt →
      tx.consentGranted = false → token = tx.consentToken →
      (confirmConsent (confirmConsent store id token now).2 id token now2).1 =
        .error (if tx.expiresAt ≤ now2 then .transactionExpired else .consentTokenInvalid)) ∧
    (∀ store id tx token now, getTx store id = some tx →
      (token == tx.consentToken) = false →
      (confirmConsent store id token now).1 =
        .error (if tx.expiresAt ≤ now then .transactionExpired else .consentTokenInvalid)) := by
  have hfirst : ∀ (store : TransactionStore) (id : String)
      (tx : AuthorizationTransaction) (token : String) (now : Nat),
      getTx store id = some tx → now < tx.expiresAt →
      tx.consentGranted = false → token = tx.consentToken →
      confirmConsent store id token now =
        (.ok (), setTx store id { tx with consentGranted := true }) := by
    intro store id tx token now hget hlive hng htok
    simp only [confirmConsent, hget]
    rw [if_neg (by omega)]
    simp [hng, htok]
  refine ⟨hfirst, ?_, ?_⟩
  · intro store id tx token now now2 hget hlive hng htok
    rw [hfirst store id tx token now hget hlive hng htok]
    simp only [confirmConsent, getTx_setTx]
    by_cases hexp : tx.expiresAt ≤ now2 <;> simp [hexp]
  · intro store id tx token now hget hne
    simp only [confirmConsent, hget]
    by_cases hexp : tx.expiresAt ≤ now
    · rw [if_pos hexp, if_pos hexp]
    · rw [if_neg hexp, if_neg hexp]
      by_cases hg : tx.consentGranted
      · simp [hg]
      · simp [hg, hne]

/-- Witness for C7: a first consent confirmation with the minted token
succeeds and flips the stored flag; repeating it with the same token is
rejected with `ConsentTokenInvalid`. -/
theorem consent_token_single_use_witness :
    confirmConsent
        [("tx-5",
          { transactionId := "tx-5", codeVerifier := "v5", codeChallenge := "ch5",
            consentToken := "consent-tok", clientRedirectUri := "https://client.example/cb",
            clientState := "cs5", requestedScopes := ["openid"], state := "st5",
            consentGranted := false, createdAt := 0, expiresAt := 600 })]
        "tx-5" "consent-tok" 10 =
      (.ok (),
        [("tx-5",
          { transactionId := "tx-5", codeVerifier := "v5", codeChallenge := "ch5",
            consentToken := "consent-tok", clientRedirectUri := "https://client.example/cb",
            clientState := "cs5", requestedScopes := ["openid"], state := "st5",
            consentGranted := true, createdAt := 0, expiresAt := 600 })]) ∧
    (confirmConsent
        (confirmConsent
          [("tx-5",
            { transactionId := "tx-5", codeVerifier := "v5", codeChallenge := "ch5",
              consentToken := "consent-tok", clientRedirectUri := "https://client.example/cb",
              clientState := "cs5", requestedScopes := ["openid"], state := "st5",
              consentGranted := false, createdAt := 0, expiresAt := 600 })]
          "tx-5" "consent-tok" 10).2
        "tx-5" "consent-tok" 20).1 = .error .consentTokenInvalid := by
  constructor
  · rw [consent_token_single_use.1
      [("tx-5",
        { transactionId := "tx-5", codeVerifier := "v5", codeChallenge := "ch5",
              consentToken := "consent-tok", clientRedirectUri := "https://client.example/cb",
              clientState := "cs5", requestedScopes := ["openid"], state := "st5",
              consentGranted := false, createdAt := 0, expiresAt := 600 })]
      "tx-5"
      { transactionId := "tx-5", codeVerifier := "v5", codeChallenge := "ch5",
              consentToken := "consent-tok", clientRedirectUri := "https://client.example/cb",
              clientState := "cs5", requestedScopes := ["openid"], state := "st5",
              consentGranted := false, createdAt := 0, expiresAt := 600 }
      "consent-tok" 10 rfl (by decide) rfl rfl]
    rfl
  · have h := consent_token_single_use.2.1
      [("tx-5",
        { transactionId := "tx-5", codeVerifier := "v5", codeChallenge := "ch5",
              consentToken := "consent-tok", clientRedirectUri := "https://client.example/cb",
              clientState := "cs5", requestedScopes := ["openid"], state := "st5",
              consentGranted := false, createdAt := 0, expiresAt := 600 })]
      "tx-5"
      { transactionId := "tx-5", codeVerifier := "v5", codeChallenge := "ch5",
              consentToken := "consent-tok", clientRedirectUri := "https://client.example/cb",
              clientState := "cs5", requestedScopes := ["openid"], state := "st5",
              consentGranted := false, createdAt := 0, expiresAt := 600 }
      "consent-tok" 10 20 rfl (by decide) rfl rfl
    simpa using h
